import Mathlib

/-!
Verification of the `mod-server-auto-shutdown` module
(`src/ServerAutoShutdown.cpp`), a daily scheduled-shutdown subsystem.

The embedding below translates the logic of the module into Lean:

* `GetNextResetTime` embeds the anonymous-namespace helper of the same
  name.  The host primitives `TimeBreakdown` (localtime) and `mktime`
  are modelled as a fixed-offset local-time conversion with offset
  `tz` seconds (no DST): overwriting the hour/minute/second fields of
  the broken-down time and converting back yields the start of the
  current local day plus the target time of day.
* `Tokenize` and `StringTo8` embed `acore::Tokenize(str, ':', false)`
  (split on the separator, dropping empty tokens) and
  `acore::StringTo<uint8>` (base-10 digits only, whole string
  consumed, value must fit in 8 bits).
* `initCalc` embeds the arithmetic of `ServerAutoShutdown::Init`
  (lines 102-141): the `uint64`/`uint32` machine arithmetic is kept
  explicit via `% 2^64` / `% 2^32` wrap-around helpers.
* `ServerAutoShutdown.Init` embeds the full `Init` control flow:
  config reads, parse/range validation with its early returns, the
  cancel-all, the log calls (as an ordered list of `LogMsg` values,
  `sLog->outError` at error level and `sLog->outString` at info
  level), and the single `scheduler.Schedule` call.  The scheduled
  closure captures `preAnnounceSeconds`; that captured value is both
  the announced remaining time and the delay argument passed to
  `sWorld->ShutdownServ`, so it is stored in the `Task` record.
* `ServerAutoShutdown.OnUpdate` embeds the per-tick update:
  `scheduler.Update(diff)` decrements the remaining delay of each
  pending task (milliseconds) and fires the due ones in FIFO order,
  and is skipped entirely while `_isEnableModule` is false.

Tasks carry a ghost `gen` field recording which call to `Init`
scheduled them; it changes no observable behaviour and only lets the
temporal no-stale-firing property be stated.
-/

/-- Modulus `2^32` of C++ `uint32` arithmetic. -/
def U32 : Nat := 4294967296

/-- Modulus `2^64` of C++ `uint64` arithmetic. -/
def U64 : Nat := 18446744073709551616

/-- Truncation to `uint32` (`static_cast<uint32>`). -/
def u32 (n : Nat) : Nat := n % U32

/-- Wrap-around unsigned subtraction `a - b` at modulus `w`. -/
def wrapSub (w a b : Nat) : Nat := (a % w + (w - b % w)) % w

/-- Conversion of a (signed) `time_t` value to `uint64`. -/
def toU64 (x : Int) : Nat := (x.emod 18446744073709551616).toNat

/-- Seconds elapsed since local midnight at instant `t`, in a
fixed-offset local-time model with offset `tz` seconds (the model of
the `TimeBreakdown` / `mktime` pair used by `GetNextResetTime`). -/
def secondsOfLocalDay (tz t : Int) : Int := (t + tz).emod 86400

/-- Embedding of `GetNextResetTime` (ServerAutoShutdown.cpp lines
24-37): take the local-calendar breakdown of `time`, overwrite its
hour/minute/second with the target values, convert back with `mktime`
(modelled as start-of-local-day plus the target time of day), and add
one day (`DAY = 86400`) if the result is not in the future. -/
def GetNextResetTime (tz t : Int) (hour minute second : Nat) : Int :=
  let midnightLocal : Int :=
    t - secondsOfLocalDay tz t +
      ((hour : Int) * 3600 + (minute : Int) * 60 + (second : Int))
  if midnightLocal ≤ t then midnightLocal + 86400 else midnightLocal

/-- Splitting a character list at a separator, keeping empty pieces
(the core of `acore::Tokenize`). -/
def splitSep (sep : Char) : List Char → List (List Char)
  | [] => [[]]
  | c :: cs =>
    match splitSep sep cs with
    | [] => [[]]
    | t :: ts => if c = sep then [] :: t :: ts else (c :: t) :: ts

/-- Embedding of `acore::Tokenize(str, sep, keepEmpty)`: split at the
separator and, when `keepEmpty` is false, drop the empty tokens. -/
def Tokenize (s : String) (sep : Char) (keepEmpty : Bool) : List (List Char) :=
  let parts := splitSep sep s.data
  if keepEmpty then parts else parts.filter (fun t => decide (t ≠ []))

/-- Embedding of `acore::StringTo<uint8>`: the whole token must be
base-10 digits and the value must fit in `uint8` (otherwise
`std::nullopt`). -/
def StringTo8 (s : List Char) : Option Nat :=
  if s = [] then none
  else if s.all Char.isDigit then
    let v := s.foldl (fun a c => a * 10 + (c.toNat - 48)) 0
    if v ≤ 255 then some v else none
  else none

/-- Log levels of the host logging collaborator.  The code of the module
only ever calls `sLog->outError` (level `error`) and
`sLog->outString` (level `info`); `warning` is part of the host
interface but never produced by this module. -/
inductive LogLevel
  | error
  | warning
  | info
deriving DecidableEq, Repr

/-- The log calls issued by `ServerAutoShutdown::Init`, in source
order, abstracted from their formatted text. -/
inductive LogMsg
  | errIncorrectTime
  | errIncorrectHour
  | errIncorrectMinute
  | errIncorrectSecond
  | infoSetNextDay
  | infoBlank
  | infoSystemLoading
  | infoNextShutdown
  | infoRemainingShutdown
  | errPreAnnounceTooLong
  | infoNextPreAnnounce
  | infoRemainingPreAnnounce
deriving DecidableEq, Repr

/-- Level of each log call: `sLog->outError` is `error`, every
`sLog->outString` call is `info`. -/
def LogMsg.level : LogMsg → LogLevel
  | .errIncorrectTime => .error
  | .errIncorrectHour => .error
  | .errIncorrectMinute => .error
  | .errIncorrectSecond => .error
  | .errPreAnnounceTooLong => .error
  | _ => .info

/-- The configuration values read by `Init` from `sConfigMgr`:
`ServerAutoShutdown.Enabled`, `ServerAutoShutdown.Time` and
`ServerAutoShutdown.PreAnnounce.Seconds` (a `uint32`). -/
structure InitConfig where
  enabled : Bool
  timeStr : String
  preAnnounceSeconds : Nat
deriving DecidableEq, Repr

/-- The quantities computed by `ServerAutoShutdown::Init` lines
102-141, with the machine arithmetic kept explicit:
`nextResetRaw`/`diffRaw` are the values of lines 103-104,
`nextResetTime`/`diffToShutdown` those after the under-10-seconds
push (lines 106-112), `preAnnounceAfterClamp` is `preAnnounceSeconds`
after the over-one-day clamp (lines 125-130), and the last three
fields are the values after the collapse branch (lines 132-141). -/
structure InitCalc where
  nextResetRaw : Nat
  diffRaw : Nat
  nextResetTime : Nat
  diffToShutdown : Nat
  preAnnounceAfterClamp : Nat
  timeToPreAnnounce : Nat
  diffToPreAnnounce : Nat
  preAnnounceSeconds : Nat
deriving DecidableEq, Repr

/-- Embedding of the time arithmetic of `Init` (lines 102-141).
`nowTime` is `time(nullptr)`; `tz` the local-time offset of the
`mktime` model.  Mirrors the C++ statement by statement:
`uint64 nextResetTime = GetNextResetTime(nowTime, hour, minute, second)`;
`uint32 diffToShutdown = nextResetTime - (uint32)nowTime`;
the `diffToShutdown < 10` push by `DAY` and recomputation;
the `preAnnounceSeconds > DAY` clamp to 3600;
`uint32 timeToPreAnnounce = (uint32)nextResetTime - preAnnounceSeconds`;
`uint32 diffToPreAnnounce = timeToPreAnnounce - (uint32)nowTime`;
and the `diffToShutdown < preAnnounceSeconds` collapse, which in the
C++ overwrites the three variables of the last three fields. -/
def initCalc (tz : Int) (now : Nat) (hour minute second : Nat)
    (preAnnounceCfg : Nat) : InitCalc :=
  let nextResetRaw := toU64 (GetNextResetTime tz (now : Int) hour minute second)
  let diffRaw := u32 (wrapSub U64 nextResetRaw (u32 now))
  let nextResetTime := if diffRaw < 10 then (nextResetRaw + 86400) % U64 else nextResetRaw
  let diffToShutdown := u32 (wrapSub U64 nextResetTime (u32 now))
  let preAfterClamp := if 86400 < preAnnounceCfg then 3600 else preAnnounceCfg
  let collapse := diffToShutdown < preAfterClamp
  let timeToPre0 := wrapSub U32 (u32 nextResetTime) preAfterClamp
  { nextResetRaw := nextResetRaw
    diffRaw := diffRaw
    nextResetTime := nextResetTime
    diffToShutdown := diffToShutdown
    preAnnounceAfterClamp := preAfterClamp
    timeToPreAnnounce := if collapse then (u32 now + 1) % U32 else timeToPre0
    diffToPreAnnounce := if collapse then 1 else wrapSub U32 timeToPre0 (u32 now)
    preAnnounceSeconds := if collapse then diffToShutdown else preAfterClamp }

namespace ServerAutoShutdown

/-- A one-shot task owned by the `TaskScheduler` queue.
`delaySeconds` is the argument of `scheduler.Schedule(Seconds(...))`;
`remaining` is the remaining scheduler time in milliseconds
(`1000 * delaySeconds` at enqueue).  `preAnnounceSeconds` is the
value captured by the scheduled closure: it is both the remaining
time the closure announces (via `secsToTimeString`) and the delay it
passes to `sWorld->ShutdownServ`.  `gen` is a ghost tag recording
which `Init` call scheduled the task. -/
structure Task where
  delaySeconds : Nat
  remaining : Nat
  preAnnounceSeconds : Nat
  gen : Nat
deriving DecidableEq, Repr

/-- Module state: the `_isEnableModule` flag and the scheduler task
queue, plus the ghost `Init`-generation counter. -/
structure ModuleState where
  isEnableModule : Bool
  queue : List Task
  gen : Nat
deriving DecidableEq, Repr

/-- Embedding of `ServerAutoShutdown::Init` (lines 46-164).  Follows
the C++ control flow exactly: set `_isEnableModule` from the config
and return if disabled; tokenize the time string and return (module
disabled, error logged) on a wrong token count or a non-numeric
token; on an out-of-range hour/minute/second log the error and clear
`_isEnableModule` but fall through (the C++ has no early return
there); then compute the schedule (`initCalc`), log, clear the task
queue (`scheduler.CancelAll`), and enqueue the single pre-announce
task (`scheduler.Schedule(Seconds(diffToPreAnnounce), ...)`) whose
closure captures `preAnnounceSeconds`.  Returns the new state and
the list of log calls in source order. -/
def Init (cfg : InitConfig) (tz : Int) (now : Nat) (st : ModuleState) :
    ModuleState × List LogMsg :=
  let g := st.gen + 1
  if cfg.enabled = false then
    ({ st with isEnableModule := false, gen := g }, [])
  else
    let tokens := Tokenize cfg.timeStr ':' false
    if tokens.length ≠ 3 then
      ({ st with isEnableModule := false, gen := g }, [LogMsg.errIncorrectTime])
    else if ¬ ((StringTo8 (tokens.getD 0 [])).isSome ∧
               (StringTo8 (tokens.getD 1 [])).isSome ∧
               (StringTo8 (tokens.getD 2 [])).isSome) then
      ({ st with isEnableModule := false, gen := g }, [LogMsg.errIncorrectTime])
    else
      let hour := (StringTo8 (tokens.getD 0 [])).getD 0
      let minute := (StringTo8 (tokens.getD 1 [])).getD 0
      let second := (StringTo8 (tokens.getD 2 [])).getD 0
      let enabledFinal :=
        if 23 < hour then false
        else if 60 ≤ minute then false
        else if 60 ≤ second then false
        else true
      let rangeLog :=
        if 23 < hour then [LogMsg.errIncorrectHour]
        else if 60 ≤ minute then [LogMsg.errIncorrectMinute]
        else if 60 ≤ second then [LogMsg.errIncorrectSecond]
        else []
      let tc := initCalc tz now hour minute second cfg.preAnnounceSeconds
      let pushLog := if tc.diffRaw < 10 then [LogMsg.infoSetNextDay] else []
      let clampLog :=
        if 86400 < cfg.preAnnounceSeconds then [LogMsg.errPreAnnounceTooLong] else []
      let task : Task :=
        { delaySeconds := tc.diffToPreAnnounce
          remaining := 1000 * tc.diffToPreAnnounce
          preAnnounceSeconds := tc.preAnnounceSeconds
          gen := g }
      ({ isEnableModule := enabledFinal, queue := [task], gen := g },
       rangeLog ++ pushLog ++
         [LogMsg.infoBlank, LogMsg.infoSystemLoading,
          LogMsg.infoNextShutdown, LogMsg.infoRemainingShutdown, LogMsg.infoBlank] ++
         clampLog ++
         [LogMsg.infoNextPreAnnounce, LogMsg.infoRemainingPreAnnounce, LogMsg.infoBlank])

/-- Embedding of `ServerAutoShutdown::OnUpdate` (lines 166-173): a
no-op while `_isEnableModule` is false, otherwise
`scheduler.Update(diff)` — for every pending task the remaining
milliseconds are advanced by `diff`, the due ones fire (and are
removed) in FIFO order.  Returns the new state and the fired tasks. -/
def OnUpdate (st : ModuleState) (diff : Nat) : ModuleState × List Task :=
  if st.isEnableModule = false then
    (st, [])
  else
    let fired := st.queue.filter (fun t => decide (t.remaining ≤ diff))
    let rest := (st.queue.filter (fun t => decide (¬ t.remaining ≤ diff))).map
      (fun t => { t with remaining := t.remaining - diff })
    ({ st with queue := rest }, fired)

/-- Iterated ticks: run `OnUpdate` over a list of elapsed-time
increments, collecting every task fired along the way. -/
def runUpdates (st : ModuleState) : List Nat → ModuleState × List Task
  | [] => (st, [])
  | d :: ds =>
    let r1 := OnUpdate st d
    let r2 := runUpdates r1.1 ds
    (r2.1, r1.2 ++ r2.2)

end ServerAutoShutdown

/-! ## Helper lemmas -/

lemma secondsOfLocalDay_nonneg (tz t : Int) : 0 ≤ secondsOfLocalDay tz t :=
  Int.emod_nonneg _ (by norm_num)

lemma secondsOfLocalDay_lt (tz t : Int) : secondsOfLocalDay tz t < 86400 :=
  Int.emod_lt_of_pos _ (by norm_num)

/-- The result of `GetNextResetTime` is strictly in the future, for any target
components (the rollover condition is `midnightLocal <= time`). -/
lemma nextReset_gt (tz t : Int) (hour minute second : Nat) :
    t < GetNextResetTime tz t hour minute second := by
  have h1 := secondsOfLocalDay_nonneg tz t
  have h2 := secondsOfLocalDay_lt tz t
  have h3 : 0 ≤ (hour : Int) * 3600 + (minute : Int) * 60 + (second : Int) := by
    positivity
  simp only [GetNextResetTime]
  split <;> omega

/-- For range-valid targets, `GetNextResetTime` is at most one day
ahead. -/
lemma nextReset_le (tz t : Int) (hour minute second : Nat)
    (hh : hour ≤ 23) (hm : minute ≤ 59) (hs : second ≤ 59) :
    GetNextResetTime tz t hour minute second ≤ t + 86400 := by
  have h1 := secondsOfLocalDay_nonneg tz t
  have h2 := secondsOfLocalDay_lt tz t
  have hh' : (hour : Int) ≤ 23 := by exact_mod_cast hh
  have hm' : (minute : Int) ≤ 59 := by exact_mod_cast hm
  have hs' : (second : Int) ≤ 59 := by exact_mod_cast hs
  simp only [GetNextResetTime]
  split <;> omega

/-- Wrap-around subtraction agrees with truncated subtraction when no
wrap occurs. -/
lemma wrapSub_small (w a b : Nat) (hba : b ≤ a) (ha : a < w) :
    wrapSub w a b = a - b := by
  unfold wrapSub
  rw [Nat.mod_eq_of_lt ha, Nat.mod_eq_of_lt (Nat.lt_of_le_of_lt hba ha)]
  have h2 : a + (w - b) = (a - b) + w := by omega
  rw [h2, Nat.add_mod_right, Nat.mod_eq_of_lt (by omega)]

/-- Clean arithmetic description of `initCalc` for a range-valid
target and a realistic 32-bit epoch `now` (no machine-integer wrap
occurs): writing `N` for the next reset instant, the raw diff is
`N - now`, the under-10-seconds push adds a day, the final diff to
shutdown is between 10 seconds and two days, and the collapse branch
replaces the pre-announce delay by 1 and the captured lead time by
the diff to shutdown. -/
lemma initCalc_spec (tz : Int) (now hour minute second p N : Nat)
    (hh : hour ≤ 23) (hm : minute ≤ 59) (hs : second ≤ 59)
    (hnow : now + 172800 < U32)
    (hN : N = (GetNextResetTime tz (now : Int) hour minute second).toNat) :
    now < N ∧ N ≤ now + 86400 ∧
    (initCalc tz now hour minute second p).nextResetRaw = N ∧
    (initCalc tz now hour minute second p).diffRaw = N - now ∧
    (initCalc tz now hour minute second p).nextResetTime =
      (if N - now < 10 then N + 86400 else N) ∧
    (initCalc tz now hour minute second p).diffToShutdown =
      (if N - now < 10 then N + 86400 else N) - now ∧
    10 ≤ (initCalc tz now hour minute second p).diffToShutdown ∧
    (initCalc tz now hour minute second p).diffToShutdown ≤ 172800 ∧
    (initCalc tz now hour minute second p).preAnnounceAfterClamp =
      (if 86400 < p then 3600 else p) ∧
    (initCalc tz now hour minute second p).preAnnounceAfterClamp ≤ 86400 ∧
    ((initCalc tz now hour minute second p).diffToShutdown <
        (initCalc tz now hour minute second p).preAnnounceAfterClamp →
      (initCalc tz now hour minute second p).diffToPreAnnounce = 1 ∧
      (initCalc tz now hour minute second p).preAnnounceSeconds =
        (initCalc tz now hour minute second p).diffToShutdown) ∧
    ((initCalc tz now hour minute second p).preAnnounceAfterClamp ≤
        (initCalc tz now hour minute second p).diffToShutdown →
      (initCalc tz now hour minute second p).diffToPreAnnounce =
        (initCalc tz now hour minute second p).diffToShutdown -
          (initCalc tz now hour minute second p).preAnnounceAfterClamp ∧
      (initCalc tz now hour minute second p).preAnnounceSeconds =
        (initCalc tz now hour minute second p).preAnnounceAfterClamp) ∧
    now + (initCalc tz now hour minute second p).diffToShutdown =
      (initCalc tz now hour minute second p).nextResetTime := by
  have hu32 : now + 172800 < 4294967296 := by
    simpa [U32] using hnow
  have hz1 := nextReset_gt tz (now : Int) hour minute second
  have hz2 := nextReset_le tz (now : Int) hour minute second hh hm hs
  have hz0 : (0 : Int) ≤ GetNextResetTime tz (now : Int) hour minute second := by
    have : (0 : Int) ≤ (now : Int) := Int.ofNat_nonneg now
    omega
  have hNgt : now < N := by omega
  have hNle : N ≤ now + 86400 := by omega
  have hemod : (GetNextResetTime tz (now : Int) hour minute second).emod
      18446744073709551616 = GetNextResetTime tz (now : Int) hour minute second := by
    apply Int.emod_eq_of_lt hz0
    omega
  have hraw : toU64 (GetNextResetTime tz (now : Int) hour minute second) = N := by
    rw [toU64, hemod, hN]
  simp only [initCalc, hraw, u32, wrapSub, U32, U64]
  norm_num
  split_ifs <;> omega

namespace ServerAutoShutdown

/-- On the armed path (module enabled, three numeric, range-valid
components), `Init` replaces the queue by the single pre-announce
task computed by `initCalc`, leaves the module enabled, and logs no
error except possibly the pre-announce clamp diagnostic. -/
lemma Init_armed (cfg : InitConfig) (tz : Int) (now : Nat) (st : ModuleState)
    (t0 t1 t2 : List Char) (hour minute second : Nat)
    (hen : cfg.enabled = true)
    (htok : Tokenize cfg.timeStr ':' false = [t0, t1, t2])
    (h0 : StringTo8 t0 = some hour)
    (h1 : StringTo8 t1 = some minute)
    (h2 : StringTo8 t2 = some second)
    (hh : hour ≤ 23) (hm : minute ≤ 59) (hs : second ≤ 59) :
    Init cfg tz now st =
      ({ isEnableModule := true
         queue := [{ delaySeconds :=
                       (initCalc tz now hour minute second cfg.preAnnounceSeconds).diffToPreAnnounce
                     remaining :=
                       1000 * (initCalc tz now hour minute second cfg.preAnnounceSeconds).diffToPreAnnounce
                     preAnnounceSeconds :=
                       (initCalc tz now hour minute second cfg.preAnnounceSeconds).preAnnounceSeconds
                     gen := st.gen + 1 }]
         gen := st.gen + 1 },
       (if (initCalc tz now hour minute second cfg.preAnnounceSeconds).diffRaw < 10
          then [LogMsg.infoSetNextDay] else []) ++
         [LogMsg.infoBlank, LogMsg.infoSystemLoading, LogMsg.infoNextShutdown,
          LogMsg.infoRemainingShutdown, LogMsg.infoBlank] ++
         (if 86400 < cfg.preAnnounceSeconds then [LogMsg.errPreAnnounceTooLong] else []) ++
         [LogMsg.infoNextPreAnnounce, LogMsg.infoRemainingPreAnnounce, LogMsg.infoBlank]) := by
  have hno1 : ¬ (23 < hour) := by omega
  have hno2 : ¬ (60 ≤ minute) := by omega
  have hno3 : ¬ (60 ≤ second) := by omega
  simp only [Init, hen, htok, List.getD_cons_zero, List.getD_cons_succ, h0, h1, h2,
    List.length_cons, List.length_nil, Option.isSome_some, Option.getD_some,
    Bool.true_eq_false, if_false, hno1, hno2, hno3]
  norm_num

end ServerAutoShutdown

namespace ServerAutoShutdown

/-- The call `OnUpdate` never changes the enabled flag. -/
lemma OnUpdate_isEnable (st : ModuleState) (d : Nat) :
    (OnUpdate st d).1.isEnableModule = st.isEnableModule := by
  unfold OnUpdate
  split <;> rfl

/-- On a disabled module, `OnUpdate` is a no-op and fires nothing. -/
lemma OnUpdate_disabled (st : ModuleState) (d : Nat)
    (h : st.isEnableModule = false) : OnUpdate st d = (st, []) := by
  simp [OnUpdate, h]

/-- Every task fired by `OnUpdate` was in the queue, and firing only
happens while the module is enabled. -/
lemma OnUpdate_fired_mem (st : ModuleState) (d : Nat) (t : Task)
    (h : t ∈ (OnUpdate st d).2) : t ∈ st.queue ∧ st.isEnableModule = true := by
  unfold OnUpdate at h
  by_cases he : st.isEnableModule = false
  · simp [he] at h
  · have he' : st.isEnableModule = true := by
      cases hb : st.isEnableModule
      · exact absurd hb he
      · rfl
    simp only [he', Bool.true_eq_false, if_false] at h
    exact ⟨List.mem_of_mem_filter h, he'⟩

/-- Every task left in the queue by `OnUpdate` is a decremented copy
of a task that was already there; in particular its ghost generation
tag is unchanged. -/
lemma OnUpdate_queue_gen (st : ModuleState) (d : Nat) (t : Task)
    (h : t ∈ (OnUpdate st d).1.queue) : ∃ u ∈ st.queue, u.gen = t.gen := by
  unfold OnUpdate at h
  by_cases he : st.isEnableModule = false
  · simp only [he, if_true] at h
    exact ⟨t, h, rfl⟩
  · have he' : st.isEnableModule = true := by
      cases hb : st.isEnableModule
      · exact absurd hb he
      · rfl
    simp only [he', Bool.true_eq_false, if_false] at h
    rcases List.mem_map.mp h with ⟨u, hu, hut⟩
    exact ⟨u, List.mem_of_mem_filter hu, by rw [← hut]⟩

/-- If, whenever the module is enabled, every queued task carries a
generation tag above `g`, then no tick sequence ever fires a task
with tag `g` or below. -/
lemma runUpdates_fresh (g : Nat) :
    ∀ (ds : List Nat) (st : ModuleState),
      (st.isEnableModule = true → ∀ t ∈ st.queue, g < t.gen) →
      ∀ t ∈ (runUpdates st ds).2, g < t.gen := by
  intro ds
  induction ds with
  | nil =>
    intro st _ t ht
    simp [runUpdates] at ht
  | cons d ds ih =>
    intro st hst t ht
    simp only [runUpdates, List.mem_append] at ht
    rcases ht with ht | ht
    · rcases OnUpdate_fired_mem st d t ht with ⟨hmem, hen⟩
      exact hst hen t hmem
    · refine ih (OnUpdate st d).1 ?_ t ht
      intro hen u hu
      rcases OnUpdate_queue_gen st d u hu with ⟨v, hv, hvg⟩
      have hen' : st.isEnableModule = true := by
        rw [← OnUpdate_isEnable st d]
        exact hen
      have := hst hen' v hv
      omega

/-- After any call to `Init`, whenever the resulting module is
enabled its queue holds only tasks of the new generation
`st.gen + 1`; the early-return paths leave the queue untouched but
disabled, and the scheduling paths replace it. -/
lemma Init_queue_fresh (cfg : InitConfig) (tz : Int) (now : Nat) (st : ModuleState) :
    (Init cfg tz now st).1.isEnableModule = true →
    ∀ t ∈ (Init cfg tz now st).1.queue, t.gen = st.gen + 1 := by
  simp only [Init]
  split_ifs <;> simp

end ServerAutoShutdown

/-! ## Claim theorems -/

/-- C2: for every epoch time `t` and every range-valid
hour/minute/second triple, `GetNextResetTime` returns an instant
strictly greater than `t` and at most `t + 86400`; the embedded
function is pure and total by construction (any timezone offset
`tz` of the fixed-offset local-time model). -/
theorem nextResetTime_strictly_future_within_one_day
    (tz t : Int) (hour minute second : Nat)
    (hh : hour ≤ 23) (hm : minute ≤ 59) (hs : second ≤ 59) :
    t < GetNextResetTime tz t hour minute second ∧
    GetNextResetTime tz t hour minute second ≤ t + 86400 :=
  ⟨nextReset_gt tz t hour minute second,
   nextReset_le tz t hour minute second hh hm hs⟩

/-- Witness for C2 at `tz = 0`, `t = 0`, target `04:00:00`. -/
theorem nextResetTime_strictly_future_within_one_day_witness :
    (0 : Int) < GetNextResetTime 0 0 4 0 0 ∧
    GetNextResetTime 0 0 4 0 0 ≤ 0 + 86400 :=
  nextResetTime_strictly_future_within_one_day 0 0 4 0 0
    (by decide) (by decide) (by decide)

/-- C9: during initialization with a range-valid target and a
realistic 32-bit `now`, if the first computed shutdown diff is under
10 seconds the shutdown instant is pushed forward by exactly one day
(and left unchanged otherwise), so the effective `diffToShutdown`
used for scheduling is always at least 10 seconds.  (`initCalc` is
exactly the computation `Init` performs before it schedules.) -/
theorem quick_restart_guard_pushes_one_day
    (tz : Int) (now hour minute second p : Nat)
    (hh : hour ≤ 23) (hm : minute ≤ 59) (hs : second ≤ 59)
    (hnow : now + 172800 < U32) :
    ((initCalc tz now hour minute second p).diffRaw < 10 →
      (initCalc tz now hour minute second p).nextResetTime =
        (initCalc tz now hour minute second p).nextResetRaw + 86400) ∧
    (10 ≤ (initCalc tz now hour minute second p).diffRaw →
      (initCalc tz now hour minute second p).nextResetTime =
        (initCalc tz now hour minute second p).nextResetRaw) ∧
    10 ≤ (initCalc tz now hour minute second p).diffToShutdown := by
  obtain ⟨h1, h2, h3, h4, h5, h6, h7, h8, h9, h10, h11, h12, h13⟩ :=
    initCalc_spec tz now hour minute second p _ hh hm hs hnow rfl
  refine ⟨?_, ?_, h7⟩
  · intro hc
    rw [h4] at hc
    rw [h5, h3, if_pos hc]
  · intro hc
    rw [h4] at hc
    rw [h5, h3, if_neg (by omega)]

/-- Witness for C9 at `tz = 0`, `now = 0`, target `00:00:05` (first
diff 5 < 10, so the instant is pushed a day) with offset 3600. -/
theorem quick_restart_guard_pushes_one_day_witness :
    ((initCalc 0 0 0 0 5 3600).diffRaw < 10 →
      (initCalc 0 0 0 0 5 3600).nextResetTime =
        (initCalc 0 0 0 0 5 3600).nextResetRaw + 86400) ∧
    (10 ≤ (initCalc 0 0 0 0 5 3600).diffRaw →
      (initCalc 0 0 0 0 5 3600).nextResetTime =
        (initCalc 0 0 0 0 5 3600).nextResetRaw) ∧
    10 ≤ (initCalc 0 0 0 0 5 3600).diffToShutdown :=
  quick_restart_guard_pushes_one_day 0 0 0 0 5 3600
    (by decide) (by decide) (by decide) (by decide)

namespace ServerAutoShutdown

/-- C8: for every armed initialization (enabled, three numeric,
range-valid components, realistic 32-bit `now`), the delay handed to
the scheduler for the pre-announce task never exceeds
`diffToShutdown` — equivalently `preAnnounceAt ≤ shutdownAt` — in
both the normal branch and the collapse branch (where the naive
unsigned `timeToPreAnnounce - now` would wrap, the code schedules at
delay 1 instead). -/
theorem preannounce_delay_le_shutdown_diff
    (cfg : InitConfig) (tz : Int) (now : Nat) (st : ModuleState)
    (t0 t1 t2 : List Char) (hour minute second : Nat)
    (hen : cfg.enabled = true)
    (htok : Tokenize cfg.timeStr ':' false = [t0, t1, t2])
    (h0 : StringTo8 t0 = some hour)
    (h1 : StringTo8 t1 = some minute)
    (h2 : StringTo8 t2 = some second)
    (hh : hour ≤ 23) (hm : minute ≤ 59) (hs : second ≤ 59)
    (hnow : now + 172800 < U32) :
    ((Init cfg tz now st).1.queue.all (fun t =>
      decide (t.delaySeconds ≤
          (initCalc tz now hour minute second cfg.preAnnounceSeconds).diffToShutdown ∧
        now + t.delaySeconds ≤
          (initCalc tz now hour minute second cfg.preAnnounceSeconds).nextResetTime))) = true := by
  obtain ⟨g1, g2, g3, g4, g5, g6, g7, g8, g9, g10, g11, g12, g13⟩ :=
    initCalc_spec tz now hour minute second cfg.preAnnounceSeconds _ hh hm hs hnow rfl
  rw [Init_armed cfg tz now st t0 t1 t2 hour minute second hen htok h0 h1 h2 hh hm hs]
  simp only [List.all_cons, List.all_nil, Bool.and_true, decide_eq_true_eq]
  by_cases hc : (initCalc tz now hour minute second cfg.preAnnounceSeconds).diffToShutdown <
      (initCalc tz now hour minute second cfg.preAnnounceSeconds).preAnnounceAfterClamp
  · obtain ⟨e1, e2⟩ := g11 hc
    rw [e1]
    omega
  · obtain ⟨e1, e2⟩ := g12 (by omega)
    rw [e1]
    omega

/-- Witness for C8 with target `12:30:00`, offset 1800, at
`tz = 0`, `now = 0`. -/
theorem preannounce_delay_le_shutdown_diff_witness :
    ((Init ⟨true, "12:30:00", 1800⟩ 0 0 ⟨false, [], 0⟩).1.queue.all (fun t =>
      decide (t.delaySeconds ≤ (initCalc 0 0 12 30 0 1800).diffToShutdown ∧
        0 + t.delaySeconds ≤ (initCalc 0 0 12 30 0 1800).nextResetTime))) = true :=
  preannounce_delay_le_shutdown_diff ⟨true, "12:30:00", 1800⟩ 0 0 ⟨false, [], 0⟩
    ['1','2'] ['3','0'] ['0','0'] 12 30 0
    rfl (by decide) (by decide) (by decide) (by decide)
    (by decide) (by decide) (by decide) (by decide)

/-- C10: for every armed initialization, the scheduled delay of the
pre-announce task plus the delay it passes to the shutdown request
(`ShutdownServ(preAnnounceSeconds, ...)`) equals `diffToShutdown` in
the normal branch, and `diffToShutdown + 1` in the collapse branch
`diffToShutdown < preAnnounceSeconds`. -/
theorem announce_delay_plus_shutdown_arg
    (cfg : InitConfig) (tz : Int) (now : Nat) (st : ModuleState)
    (t0 t1 t2 : List Char) (hour minute second : Nat)
    (hen : cfg.enabled = true)
    (htok : Tokenize cfg.timeStr ':' false = [t0, t1, t2])
    (h0 : StringTo8 t0 = some hour)
    (h1 : StringTo8 t1 = some minute)
    (h2 : StringTo8 t2 = some second)
    (hh : hour ≤ 23) (hm : minute ≤ 59) (hs : second ≤ 59)
    (hnow : now + 172800 < U32) :
    ((Init cfg tz now st).1.queue.all (fun t =>
      decide (t.delaySeconds + t.preAnnounceSeconds =
        (if (initCalc tz now hour minute second cfg.preAnnounceSeconds).diffToShutdown <
             (initCalc tz now hour minute second cfg.preAnnounceSeconds).preAnnounceAfterClamp
         then (initCalc tz now hour minute second cfg.preAnnounceSeconds).diffToShutdown + 1
         else (initCalc tz now hour minute second cfg.preAnnounceSeconds).diffToShutdown)))) = true := by
  obtain ⟨g1, g2, g3, g4, g5, g6, g7, g8, g9, g10, g11, g12, g13⟩ :=
    initCalc_spec tz now hour minute second cfg.preAnnounceSeconds _ hh hm hs hnow rfl
  rw [Init_armed cfg tz now st t0 t1 t2 hour minute second hen htok h0 h1 h2 hh hm hs]
  simp only [List.all_cons, List.all_nil, Bool.and_true, decide_eq_true_eq]
  by_cases hc : (initCalc tz now hour minute second cfg.preAnnounceSeconds).diffToShutdown <
      (initCalc tz now hour minute second cfg.preAnnounceSeconds).preAnnounceAfterClamp
  · obtain ⟨e1, e2⟩ := g11 hc
    rw [e1, e2, if_pos hc]
    omega
  · obtain ⟨e1, e2⟩ := g12 (by omega)
    rw [e1, e2, if_neg hc]
    omega

/-- Witness for C10 with target `12:30:00`, offset 1800, at
`tz = 0`, `now = 0`. -/
theorem announce_delay_plus_shutdown_arg_witness :
    ((Init ⟨true, "12:30:00", 1800⟩ 0 0 ⟨true, [], 3⟩).1.queue.all (fun t =>
      decide (t.delaySeconds + t.preAnnounceSeconds =
        (if (initCalc 0 0 12 30 0 1800).diffToShutdown <
             (initCalc 0 0 12 30 0 1800).preAnnounceAfterClamp
         then (initCalc 0 0 12 30 0 1800).diffToShutdown + 1
         else (initCalc 0 0 12 30 0 1800).diffToShutdown)))) = true :=
  announce_delay_plus_shutdown_arg ⟨true, "12:30:00", 1800⟩ 0 0 ⟨true, [], 3⟩
    ['1','2'] ['3','0'] ['0','0'] 12 30 0
    rfl (by decide) (by decide) (by decide) (by decide)
    (by decide) (by decide) (by decide) (by decide)

end ServerAutoShutdown

namespace ServerAutoShutdown

/-- C4: in the collapse case — derived `diffToShutdown = 500` with
configured `preAnnounceSeconds = 3600` — the pre-announce task is
scheduled at delay 1 second (`now + 1`), and the remaining time it
captures (announced in the message and passed to the shutdown
request) is the true remaining 500 seconds, not the configured
3600. -/
theorem collapse_case_fires_at_one_second_with_true_remaining
    (cfg : InitConfig) (tz : Int) (now : Nat) (st : ModuleState)
    (t0 t1 t2 : List Char) (hour minute second : Nat)
    (hen : cfg.enabled = true)
    (htok : Tokenize cfg.timeStr ':' false = [t0, t1, t2])
    (h0 : StringTo8 t0 = some hour)
    (h1 : StringTo8 t1 = some minute)
    (h2 : StringTo8 t2 = some second)
    (hh : hour ≤ 23) (hm : minute ≤ 59) (hs : second ≤ 59)
    (hnow : now + 172800 < U32)
    (hdiff : (initCalc tz now hour minute second cfg.preAnnounceSeconds).diffToShutdown = 500)
    (hpre : cfg.preAnnounceSeconds = 3600) :
    ((Init cfg tz now st).1.queue.map Task.delaySeconds) = [1] ∧
    ((Init cfg tz now st).1.queue.map Task.preAnnounceSeconds) = [500] := by
  obtain ⟨g1, g2, g3, g4, g5, g6, g7, g8, g9, g10, g11, g12, g13⟩ :=
    initCalc_spec tz now hour minute second cfg.preAnnounceSeconds _ hh hm hs hnow rfl
  rw [Init_armed cfg tz now st t0 t1 t2 hour minute second hen htok h0 h1 h2 hh hm hs]
  have hc : (initCalc tz now hour minute second cfg.preAnnounceSeconds).diffToShutdown <
      (initCalc tz now hour minute second cfg.preAnnounceSeconds).preAnnounceAfterClamp := by
    rw [hdiff, g9, hpre]
    norm_num
  obtain ⟨e1, e2⟩ := g11 hc
  simp only [List.map_cons, List.map_nil, e1, e2, hdiff]
  exact ⟨trivial, trivial⟩

/-- Witness for C4: `tz = 0`, `now = 0` (local midnight), target
`00:08:20` gives `diffToShutdown = 500`; offset 3600. -/
theorem collapse_case_fires_at_one_second_with_true_remaining_witness :
    ((Init ⟨true, "00:08:20", 3600⟩ 0 0 ⟨false, [], 0⟩).1.queue.map Task.delaySeconds) = [1] ∧
    ((Init ⟨true, "00:08:20", 3600⟩ 0 0 ⟨false, [], 0⟩).1.queue.map Task.preAnnounceSeconds) = [500] :=
  collapse_case_fires_at_one_second_with_true_remaining
    ⟨true, "00:08:20", 3600⟩ 0 0 ⟨false, [], 0⟩
    ['0','0'] ['0','8'] ['2','0'] 0 8 20
    rfl (by decide) (by decide) (by decide) (by decide)
    (by decide) (by decide) (by decide) (by decide) (by decide) rfl

/-- C3 (amended): every successful (enabled, valid-config)
initialization leaves the module enabled and enqueues exactly ONE
one-shot task in the scheduler — the pre-announce task, whose action
also issues the shutdown request — not a pre-announce task plus a
separate shutdown task. -/
theorem armed_init_schedules_exactly_one_task
    (cfg : InitConfig) (tz : Int) (now : Nat) (st : ModuleState)
    (t0 t1 t2 : List Char) (hour minute second : Nat)
    (hen : cfg.enabled = true)
    (htok : Tokenize cfg.timeStr ':' false = [t0, t1, t2])
    (h0 : StringTo8 t0 = some hour)
    (h1 : StringTo8 t1 = some minute)
    (h2 : StringTo8 t2 = some second)
    (hh : hour ≤ 23) (hm : minute ≤ 59) (hs : second ≤ 59) :
    (Init cfg tz now st).1.isEnableModule = true ∧
    (Init cfg tz now st).1.queue.length = 1 := by
  rw [Init_armed cfg tz now st t0 t1 t2 hour minute second hen htok h0 h1 h2 hh hm hs]
  exact ⟨rfl, rfl⟩

/-- Witness for the amended C3 theorem at config `04:00:00`/3600. -/
theorem armed_init_schedules_exactly_one_task_witness :
    (Init ⟨true, "04:00:00", 3600⟩ 0 0 ⟨false, [], 0⟩).1.isEnableModule = true ∧
    (Init ⟨true, "04:00:00", 3600⟩ 0 0 ⟨false, [], 0⟩).1.queue.length = 1 :=
  armed_init_schedules_exactly_one_task ⟨true, "04:00:00", 3600⟩ 0 0 ⟨false, [], 0⟩
    ['0','4'] ['0','0'] ['0','0'] 4 0 0
    rfl (by decide) (by decide) (by decide) (by decide)
    (by decide) (by decide) (by decide)

/-- Counterexample to C3 as stated: a successful initialization
(enabled, valid `06:00:00`) whose scheduler queue holds one task,
not two. -/
theorem successful_init_does_not_enqueue_two_tasks :
    (Init ⟨true, "06:00:00", 600⟩ 0 0 ⟨false, [], 0⟩).1.isEnableModule = true ∧
    (Init ⟨true, "06:00:00", 600⟩ 0 0 ⟨false, [], 0⟩).1.queue.length = 1 ∧
    ¬ (Init ⟨true, "06:00:00", 600⟩ 0 0 ⟨false, [], 0⟩).1.queue.length = 2 := by
  decide

end ServerAutoShutdown

namespace ServerAutoShutdown

/-- C7 (amended): after any call to `Init` — whatever the enabled
flag and whatever the config — no task scheduled by an earlier
initialization ever fires under any subsequent tick sequence.  (The
cancel itself is *not* unconditional: the early-return paths leave
the queue untouched, but they also disable the module, and `OnUpdate`
is a no-op while disabled; every path that can fire tasks first
replaced the queue.)  Old tasks are exactly those whose ghost
generation tag is at most the pre-call `st.gen`. -/
theorem no_stale_task_fires_after_reinit
    (cfg : InitConfig) (tz : Int) (now : Nat) (st : ModuleState) :
    ∀ ds : List Nat,
      ((runUpdates (Init cfg tz now st).1 ds).2.filter
        (fun t => decide (t.gen ≤ st.gen))) = [] := by
  intro ds
  rw [List.filter_eq_nil_iff]
  intro t ht
  have hfresh : st.gen < t.gen := by
    refine runUpdates_fresh st.gen ds (Init cfg tz now st).1 ?_ t ht
    intro hen u hu
    have := Init_queue_fresh cfg tz now st hen u hu
    omega
  simp only [decide_eq_true_eq]
  omega

/-- Counterexample to C7 as stated: a re-initialization with the
module disabled returns before `scheduler.CancelAll()`, leaving the
previously scheduled task in the queue (it is not cancelled). -/
theorem disabled_reinit_does_not_cancel_queue :
    (Init ⟨false, "04:00:00", 3600⟩ 0 0
        ⟨true, [⟨100, 100000, 3600, 0⟩], 0⟩).1.queue =
      [⟨100, 100000, 3600, 0⟩] := by
  decide

/-- C1: at the failing input `Time = "25:00:00"` (out-of-range hour)
the module ends disabled and the error is logged, but — missing
early return after the range checks — `Init` still falls through,
cancels, and enqueues the pre-announce task: the scheduler queue is
not left empty, contradicting the claim that no task is enqueued
after a range error. -/
theorem out_of_range_hour_disables_and_logs_but_still_schedules :
    (Init ⟨true, "25:00:00", 3600⟩ 0 0 ⟨false, [], 0⟩).1.isEnableModule = false ∧
    LogMsg.errIncorrectHour ∈ (Init ⟨true, "25:00:00", 3600⟩ 0 0 ⟨false, [], 0⟩).2 ∧
    (Init ⟨true, "25:00:00", 3600⟩ 0 0 ⟨false, [], 0⟩).1.queue.length = 1 := by
  decide

end ServerAutoShutdown

/-- The clamp of lines 125-130 in isolation: the pre-announce offset
survives unless it exceeds one day, in which case it becomes 3600. -/
lemma initCalc_preAnnounceAfterClamp (tz : Int) (now hour minute second p : Nat) :
    (initCalc tz now hour minute second p).preAnnounceAfterClamp =
      if 86400 < p then 3600 else p := rfl

namespace ServerAutoShutdown

/-- C5 (amended): for every armed initialization, a configured
pre-announce offset strictly above one day (86400 s) is clamped to
exactly 3600 and an error-level diagnostic (`sLog->outError`, the
module has no warning channel) is logged, while initialization
continues — the module stays enabled; an offset of exactly 86400 is
not clamped and produces no clamp diagnostic. -/
theorem preannounce_offset_clamp_policy
    (cfg : InitConfig) (tz : Int) (now : Nat) (st : ModuleState)
    (t0 t1 t2 : List Char) (hour minute second : Nat)
    (hen : cfg.enabled = true)
    (htok : Tokenize cfg.timeStr ':' false = [t0, t1, t2])
    (h0 : StringTo8 t0 = some hour)
    (h1 : StringTo8 t1 = some minute)
    (h2 : StringTo8 t2 = some second)
    (hh : hour ≤ 23) (hm : minute ≤ 59) (hs : second ≤ 59) :
    (86400 < cfg.preAnnounceSeconds →
      (initCalc tz now hour minute second cfg.preAnnounceSeconds).preAnnounceAfterClamp = 3600 ∧
      LogMsg.errPreAnnounceTooLong ∈ (Init cfg tz now st).2 ∧
      LogMsg.level LogMsg.errPreAnnounceTooLong = LogLevel.error ∧
      (Init cfg tz now st).1.isEnableModule = true) ∧
    (cfg.preAnnounceSeconds = 86400 →
      (initCalc tz now hour minute second cfg.preAnnounceSeconds).preAnnounceAfterClamp = 86400 ∧
      LogMsg.errPreAnnounceTooLong ∉ (Init cfg tz now st).2) := by
  rw [Init_armed cfg tz now st t0 t1 t2 hour minute second hen htok h0 h1 h2 hh hm hs]
  constructor
  · intro hp
    refine ⟨?_, ?_, rfl, rfl⟩
    · rw [initCalc_preAnnounceAfterClamp, if_pos hp]
    · rw [if_pos hp]
      simp [List.mem_append]
  · intro hp
    have hnp : ¬ 86400 < cfg.preAnnounceSeconds := by omega
    refine ⟨?_, ?_⟩
    · rw [initCalc_preAnnounceAfterClamp, if_neg hnp, hp]
    · rw [if_neg hnp]
      by_cases hq : (initCalc tz now hour minute second cfg.preAnnounceSeconds).diffRaw < 10
      · rw [if_pos hq]
        simp
      · rw [if_neg hq]
        simp

end ServerAutoShutdown

namespace ServerAutoShutdown

/-- Witness for C5 at `tz = 0`, `now = 0`, target `04:00:00`:
offset 90000 is clamped to 3600 with the clamp diagnostic logged;
offset exactly 86400 is kept and produces no clamp diagnostic. -/
theorem preannounce_offset_clamp_policy_witness :
    (initCalc 0 0 4 0 0 90000).preAnnounceAfterClamp = 3600 ∧
    LogMsg.errPreAnnounceTooLong ∈ (Init ⟨true, "04:00:00", 90000⟩ 0 0 ⟨false, [], 0⟩).2 ∧
    (initCalc 0 0 4 0 0 86400).preAnnounceAfterClamp = 86400 ∧
    LogMsg.errPreAnnounceTooLong ∉ (Init ⟨true, "04:00:00", 86400⟩ 0 0 ⟨false, [], 0⟩).2 := by
  refine ⟨?_, ?_, ?_, ?_⟩
  · exact ((preannounce_offset_clamp_policy ⟨true, "04:00:00", 90000⟩ 0 0 ⟨false, [], 0⟩
      ['0','4'] ['0','0'] ['0','0'] 4 0 0 rfl (by decide) (by decide) (by decide)
      (by decide) (by decide) (by decide) (by decide)).1 (by decide)).1
  · exact ((preannounce_offset_clamp_policy ⟨true, "04:00:00", 90000⟩ 0 0 ⟨false, [], 0⟩
      ['0','4'] ['0','0'] ['0','0'] 4 0 0 rfl (by decide) (by decide) (by decide)
      (by decide) (by decide) (by decide) (by decide)).1 (by decide)).2.1
  · exact ((preannounce_offset_clamp_policy ⟨true, "04:00:00", 86400⟩ 0 0 ⟨false, [], 0⟩
      ['0','4'] ['0','0'] ['0','0'] 4 0 0 rfl (by decide) (by decide) (by decide)
      (by decide) (by decide) (by decide) (by decide)).2 rfl).1
  · exact ((preannounce_offset_clamp_policy ⟨true, "04:00:00", 86400⟩ 0 0 ⟨false, [], 0⟩
      ['0','4'] ['0','0'] ['0','0'] 4 0 0 rfl (by decide) (by decide) (by decide)
      (by decide) (by decide) (by decide) (by decide)).2 rfl).2

/-- Counterexample to C5 as stated: with offset 90000 the clamp
diagnostic exists but is logged through `sLog->outError` (error
level); no log call of this module is at warning level. -/
theorem clamp_diagnostic_not_warning_level :
    LogMsg.errPreAnnounceTooLong ∈ (Init ⟨true, "05:00:00", 90000⟩ 0 0 ⟨false, [], 0⟩).2 ∧
    LogMsg.level LogMsg.errPreAnnounceTooLong = LogLevel.error ∧
    ((Init ⟨true, "05:00:00", 90000⟩ 0 0 ⟨false, [], 0⟩).2.all
      (fun m => decide (m.level ≠ LogLevel.warning))) = true := by
  decide

/-- C6 (amended): `"04:00:00"` tokenizes to three components parsed
as `(4, 0, 0)` and the module stays enabled with no error; `"4:0:0"`
is ALSO accepted (single-digit components parse) and stays enabled;
each of `"04:00"`, `"ab:00:00"`, `"25:00:00"`, `"00:60:00"`,
`"00:00:60"` yields a disabled module with an error logged. -/
theorem time_string_parsing_cases :
    Tokenize "04:00:00" ':' false = [['0','4'], ['0','0'], ['0','0']] ∧
    StringTo8 ['0','4'] = some 4 ∧ StringTo8 ['0','0'] = some 0 ∧
    (Init ⟨true, "04:00:00", 1800⟩ 0 0 ⟨false, [], 0⟩).1.isEnableModule = true ∧
    ((Init ⟨true, "04:00:00", 1800⟩ 0 0 ⟨false, [], 0⟩).2.all
      (fun m => decide (m.level ≠ LogLevel.error))) = true ∧
    Tokenize "4:0:0" ':' false = [['4'], ['0'], ['0']] ∧
    StringTo8 ['4'] = some 4 ∧ StringTo8 ['0'] = some 0 ∧
    (Init ⟨true, "4:0:0", 1800⟩ 0 0 ⟨false, [], 0⟩).1.isEnableModule = true ∧
    ((Init ⟨true, "04:00", 1800⟩ 0 0 ⟨false, [], 0⟩).1.isEnableModule = false ∧
      ((Init ⟨true, "04:00", 1800⟩ 0 0 ⟨false, [], 0⟩).2.any
        (fun m => decide (m.level = LogLevel.error))) = true) ∧
    ((Init ⟨true, "ab:00:00", 1800⟩ 0 0 ⟨false, [], 0⟩).1.isEnableModule = false ∧
      ((Init ⟨true, "ab:00:00", 1800⟩ 0 0 ⟨false, [], 0⟩).2.any
        (fun m => decide (m.level = LogLevel.error))) = true) ∧
    ((Init ⟨true, "25:00:00", 1800⟩ 0 0 ⟨false, [], 0⟩).1.isEnableModule = false ∧
      ((Init ⟨true, "25:00:00", 1800⟩ 0 0 ⟨false, [], 0⟩).2.any
        (fun m => decide (m.level = LogLevel.error))) = true) ∧
    ((Init ⟨true, "00:60:00", 1800⟩ 0 0 ⟨false, [], 0⟩).1.isEnableModule = false ∧
      ((Init ⟨true, "00:60:00", 1800⟩ 0 0 ⟨false, [], 0⟩).2.any
        (fun m => decide (m.level = LogLevel.error))) = true) ∧
    ((Init ⟨true, "00:00:60", 1800⟩ 0 0 ⟨false, [], 0⟩).1.isEnableModule = false ∧
      ((Init ⟨true, "00:00:60", 1800⟩ 0 0 ⟨false, [], 0⟩).2.any
        (fun m => decide (m.level = LogLevel.error))) = true) := by
  decide

/-- Counterexample to C6 as stated: `"4:0:0"` does NOT yield a
disabled module — single-digit components are accepted, the module
stays enabled and logs no error. -/
theorem single_digit_time_is_accepted_not_rejected :
    (Init ⟨true, "4:0:0", 900⟩ 0 0 ⟨false, [], 0⟩).1.isEnableModule = true ∧
    ((Init ⟨true, "4:0:0", 900⟩ 0 0 ⟨false, [], 0⟩).2.all
      (fun m => decide (m.level ≠ LogLevel.error))) = true := by
  decide

end ServerAutoShutdown
